import Mathlib

/-
Verification of the interactive crop engine of the image-sizer repository
(src/src/components/ImageCropper.tsx), shallowly embedded over exact
rational arithmetic.  Display-space coordinates, scale factors and ratios
are modelled as ℚ; pixel counts and rounded source coordinates as ℤ.
Each definition mirrors one function or expression of the source file.
-/

namespace ImageSizer

/-- A crop rectangle in display-space coordinates
(the `cropBox` state of `ImageCropper`). -/
structure CropBox where
  x : ℚ
  y : ℚ
  width : ℚ
  height : ℚ
deriving DecidableEq, Repr

/-- One entry of the aspect-ratio catalog. -/
structure AspectRatio where
  name : String
  value : ℚ
deriving DecidableEq, Repr

/-- The fixed 8-element catalog `ASPECT_RATIOS` of ImageCropper.tsx
(lines 10-19). -/
def ASPECT_RATIOS : List AspectRatio :=
  [⟨"16:9", 16/9⟩, ⟨"4:3", 4/3⟩, ⟨"3:2", 3/2⟩, ⟨"1:1", 1⟩,
   ⟨"2:3", 2/3⟩, ⟨"3:4", 3/4⟩, ⟨"9:16", 9/16⟩, ⟨"Custom", 0⟩]

/-- The `customMode` state: `'ratio' | 'pixels'`. -/
inductive CustomMode where
  | ratioPick
  | pixels
deriving DecidableEq, Repr

/-- The component state of `ImageCropper` that the crop engine reads
(interaction-transient fields such as `isDragging` are passed explicitly
to the transition functions instead). -/
structure EditorState where
  cropBox : CropBox
  currentRatioIndex : Nat
  lockAspectRatio : Bool
  customWidth : ℤ
  customHeight : ℤ
  customMode : CustomMode
  pixelWidth : ℤ
  pixelHeight : ℤ
deriving DecidableEq, Repr

/-- Initial component state (the `useState` defaults, lines 24-38). -/
def initialEditorState : EditorState :=
  { cropBox := ⟨0, 0, 0, 0⟩
    currentRatioIndex := 0
    lockAspectRatio := true
    customWidth := 16
    customHeight := 9
    customMode := CustomMode.ratioPick
    pixelWidth := 1920
    pixelHeight := 1080 }

/-- `isCustomRatio = currentRatioIndex === ASPECT_RATIOS.length - 1` (line 40). -/
def isCustomRatio (s : EditorState) : Bool :=
  s.currentRatioIndex == ASPECT_RATIOS.length - 1

/-- `customRatioValue = customWidth / customHeight` (line 41). -/
def customRatioValue (s : EditorState) : ℚ :=
  (s.customWidth : ℚ) / (s.customHeight : ℚ)

/-- `currentRatio` (lines 42-44): `null` is modelled as `none`. -/
def currentRatioVal (s : EditorState) : Option ℚ :=
  if s.lockAspectRatio then
    some (if isCustomRatio s then
            (if s.customMode == CustomMode.ratioPick then customRatioValue s
             else (s.pixelWidth : ℚ) / (s.pixelHeight : ℚ))
          else (ASPECT_RATIOS.getD s.currentRatioIndex ⟨"", 0⟩).value)
  else none

/-- JavaScript truthiness of the `currentRatio` value: `null` and `0` are
falsy, so `if (currentRatio)` tests both for presence and for nonzero. -/
def ratioTruthy : Option ℚ → Bool
  | none => false
  | some r => r != 0

/-- The numeric value behind an `Option ℚ` ratio (only read under
`ratioTruthy`, where it is nonzero). -/
def ratioGet : Option ℚ → ℚ
  | none => 0
  | some r => r

/-- `initializeCropBox` (lines 58-100), with the state reads factored into
parameters: `pixelTargetMode` stands for `isCustomRatio && customMode ===
'pixels'`, `ratio` for `currentRatio`, `pixelW`/`pixelH` for
`pixelWidth`/`pixelHeight`, and `imgW`/`imgH` for the measured
`imgRect.width`/`imgRect.height`. -/
def initializeCropBox (naturalW naturalH imgW imgH : ℚ)
    (pixelTargetMode : Bool) (pixelW pixelH : ℚ) (ratio : Option ℚ) : CropBox :=
  let wh :=
    if pixelTargetMode then
      let scaleX := naturalW / imgW
      let scaleY := naturalH / imgH
      let boxWidth := pixelW / scaleX
      let boxHeight := pixelH / scaleY
      if boxWidth > imgW ∨ boxHeight > imgH then
        let sc := min (imgW / boxWidth) (imgH / boxHeight) * (8/10)
        (boxWidth * sc, boxHeight * sc)
      else (boxWidth, boxHeight)
    else
      let boxWidth := imgW * (8/10)
      let boxHeight :=
        if ratioTruthy ratio then boxWidth / ratioGet ratio else imgH * (8/10)
      if boxHeight > imgH * (8/10) then
        let bh := imgH * (8/10)
        (if ratioTruthy ratio then bh * ratioGet ratio else imgW * (8/10), bh)
      else (boxWidth, boxHeight)
  ⟨(imgW - wh.1) / 2, (imgH - wh.2) / 2, wh.1, wh.2⟩

/-- Modelled from the spec: the re-initialization policy of §4.2 for
`PixelTarget(tw, th)` exactly as the spec words it — the candidate box is
downscaled whenever it exceeds 80% of the display box in either dimension.
The repository's `initializeCropBox` is the authority; this definition
exists only to compare the spec's stated trigger with the code's. -/
def initializeCropBoxSpec (naturalW naturalH imgW imgH : ℚ)
    (pixelW pixelH : ℚ) : CropBox :=
  let scaleX := naturalW / imgW
  let scaleY := naturalH / imgH
  let boxWidth := pixelW / scaleX
  let boxHeight := pixelH / scaleY
  let wh :=
    if boxWidth > imgW * (8/10) ∨ boxHeight > imgH * (8/10) then
      let sc := min (imgW / boxWidth) (imgH / boxHeight) * (8/10)
      (boxWidth * sc, boxHeight * sc)
    else (boxWidth, boxHeight)
  ⟨(imgW - wh.1) / 2, (imgH - wh.2) / 2, wh.1, wh.2⟩

/-- The eight resize handles (`data-handle` values). -/
inductive Handle where
  | n | s | e | w | ne | nw | se | sw
deriving DecidableEq, Repr

/-- `resizeHandle.includes('e')`. -/
def Handle.hasE : Handle → Bool
  | .e | .ne | .se => true
  | _ => false

/-- `resizeHandle.includes('w')`. -/
def Handle.hasW : Handle → Bool
  | .w | .nw | .sw => true
  | _ => false

/-- `resizeHandle.includes('s')`. -/
def Handle.hasS : Handle → Bool
  | .s | .se | .sw => true
  | _ => false

/-- `resizeHandle.includes('n')`. -/
def Handle.hasN : Handle → Bool
  | .n | .ne | .nw => true
  | _ => false

/-- The `'e'` branch of the resize update (lines 201-206).  `b` is the
rectangle at pointer-down (`cropBox`), `acc` carries the accumulated
`newX/newY/newWidth/newHeight` variables. -/
def stageE (imgW : ℚ) (ratio : Option ℚ) (act : Bool) (mouseX : ℚ)
    (b acc : CropBox) : CropBox :=
  if act then
    let nw := max 50 (min (mouseX - b.x) (imgW - b.x))
    { acc with width := nw,
               height := if ratioTruthy ratio then nw / ratioGet ratio
                         else acc.height }
  else acc

/-- The `'w'` branch (lines 207-215). -/
def stageW (ratio : Option ℚ) (act : Bool) (mouseX : ℚ)
    (b acc : CropBox) : CropBox :=
  if act then
    let maxX := b.x + b.width - 50
    let nx := max 0 (min mouseX maxX)
    let nw := b.x + b.width - nx
    if ratioTruthy ratio then
      let nh := nw / ratioGet ratio
      { acc with x := nx, width := nw, height := nh,
                 y := b.y + (b.height - nh) / 2 }
    else { acc with x := nx, width := nw }
  else acc

/-- The `'s'` branch (lines 216-221). -/
def stageS (imgH : ℚ) (ratio : Option ℚ) (act : Bool) (mouseY : ℚ)
    (b acc : CropBox) : CropBox :=
  if act then
    let nh := max 50 (min (mouseY - b.y) (imgH - b.y))
    { acc with height := nh,
               width := if ratioTruthy ratio then nh * ratioGet ratio
                        else acc.width }
  else acc

/-- The `'n'` branch (lines 222-230). -/
def stageN (ratio : Option ℚ) (act : Bool) (mouseY : ℚ)
    (b acc : CropBox) : CropBox :=
  if act then
    let maxY := b.y + b.height - 50
    let ny := max 0 (min mouseY maxY)
    let nh := b.y + b.height - ny
    if ratioTruthy ratio then
      let nw := nh * ratioGet ratio
      { acc with y := ny, height := nh, width := nw,
                 x := b.x + (b.width - nw) / 2 }
    else { acc with y := ny, height := nh }
  else acc

/-- First boundary-correction pass (lines 233-238). -/
def stageClampX (imgW : ℚ) (ratio : Option ℚ) (acc : CropBox) : CropBox :=
  if acc.x + acc.width > imgW then
    let nw := imgW - acc.x
    { acc with width := nw,
               height := if ratioTruthy ratio then nw / ratioGet ratio
                         else acc.height }
  else acc

/-- Second boundary-correction pass (lines 239-244). -/
def stageClampY (imgH : ℚ) (ratio : Option ℚ) (acc : CropBox) : CropBox :=
  if acc.y + acc.height > imgH then
    let nh := imgH - acc.y
    { acc with height := nh,
               width := if ratioTruthy ratio then nh * ratioGet ratio
                        else acc.width }
  else acc

/-- The resizing branch of `handleMouseMove` (lines 192-252): the four
handle branches run in source order (e, w, s, n) followed by the two
boundary-correction passes. -/
def resizeMove (imgW imgH : ℚ) (ratio : Option ℚ) (h : Handle)
    (mouseX mouseY : ℚ) (b : CropBox) : CropBox :=
  stageClampY imgH ratio (stageClampX imgW ratio
    (stageN ratio h.hasN mouseY b
      (stageS imgH ratio h.hasS mouseY b
        (stageW ratio h.hasW mouseX b
          (stageE imgW ratio h.hasE mouseX b b)))))

/-- The dragging branch of `handleMouseMove` (lines 184-191):
`newX/newY` are pointer minus grab offset, clamped into the display box. -/
def translateMove (imgW imgH : ℚ) (dragStartX dragStartY mouseX mouseY : ℚ)
    (b : CropBox) : CropBox :=
  let newX := mouseX - dragStartX
  let newY := mouseY - dragStartY
  { b with x := max 0 (min newX (imgW - b.width)),
           y := max 0 (min newY (imgH - b.height)) }

/-- The shift-wheel branch of `handleWheel` (lines 111-141): scale the
rectangle by 0.95 or 1.05 about its centre and clamp into the display box. -/
def wheelResize (imgW imgH : ℚ) (deltaY : ℚ) (ratio : Option ℚ)
    (b : CropBox) : CropBox :=
  let scaleFactor : ℚ := if deltaY > 0 then 95/100 else 105/100
  let w0 := b.width * scaleFactor
  let h0 := if ratioTruthy ratio then w0 / ratioGet ratio
            else b.height * scaleFactor
  let wh1 :=
    if w0 > imgW then
      (imgW, if ratioTruthy ratio then imgW / ratioGet ratio else h0)
    else (w0, h0)
  let wh2 :=
    if wh1.2 > imgH then
      (if ratioTruthy ratio then imgH * ratioGet ratio else wh1.1, imgH)
    else wh1
  let x := b.x + (b.width - wh2.1) / 2
  let y := b.y + (b.height - wh2.2) / 2
  ⟨max 0 (min x (imgW - wh2.1)), max 0 (min y (imgH - wh2.2)),
   wh2.1, wh2.2⟩

/-- The no-shift wheel branch (lines 142-150): cycle the ratio index,
wrapping at both ends of the catalog. -/
def cycleRatioIndex (deltaY : ℚ) (idx : Nat) : Nat :=
  if deltaY > 0 then
    (if idx == ASPECT_RATIOS.length - 1 then 0 else idx + 1)
  else
    (if idx == 0 then ASPECT_RATIOS.length - 1 else idx - 1)

/-- Effect of `handleWheel` on `currentRatioIndex`: the shift branch never
touches the index, the no-shift branch cycles it only when the aspect lock
is enabled. -/
def handleWheelIndex (shiftKey lock : Bool) (deltaY : ℚ) (idx : Nat) : Nat :=
  if shiftKey then idx
  else if lock then cycleRatioIndex deltaY idx else idx

/-- One pointer/wheel operation on the crop rectangle. -/
inductive CropOp where
  | translate (dragStartX dragStartY mouseX mouseY : ℚ)
  | resize (handle : Handle) (mouseX mouseY : ℚ)
  | wheel (shiftKey : Bool) (deltaY : ℚ)

/-- Effect of one operation on the rectangle under a fixed effective ratio.
A no-shift wheel event mutates only the ratio selection
(`handleWheelIndex`), not the rectangle; under a fixed effective ratio
(in particular whenever the lock is disabled, where no cycling happens)
the rectangle is unchanged by it. -/
def applyOp (imgW imgH : ℚ) (ratio : Option ℚ) (b : CropBox) :
    CropOp → CropBox
  | .translate sx sy mx my => translateMove imgW imgH sx sy mx my b
  | .resize h mx my => resizeMove imgW imgH ratio h mx my b
  | .wheel sh dy => if sh then wheelResize imgW imgH dy ratio b else b

/-- A sequence of operations, applied left to right. -/
def applyOps (imgW imgH : ℚ) (ratio : Option ℚ) (b : CropBox) :
    List CropOp → CropBox
  | [] => b
  | op :: rest => applyOps imgW imgH ratio (applyOp imgW imgH ratio b op) rest

/-- JavaScript `Math.round`: half-integers round toward positive infinity. -/
def jsRound (q : ℚ) : ℤ := ⌊q + 1/2⌋

/-- Rounding with halves taken away from zero (the spec's stated
semantics for `toSource`). -/
def roundHalfAwayFromZero (q : ℚ) : ℤ :=
  if 0 ≤ q then ⌊q + 1/2⌋ else ⌈q - 1/2⌉

/-- A source-space rectangle (integer pixel coordinates). -/
structure SourceRect where
  x : ℤ
  y : ℤ
  width : ℤ
  height : ℤ
deriving DecidableEq, Repr

/-- `toSource`: the source extraction rectangle of `getCroppedImage`
(lines 289-292), each field rounded independently. -/
def toSource (b : CropBox) (scaleX scaleY : ℚ) : SourceRect :=
  ⟨jsRound (b.x * scaleX), jsRound (b.y * scaleY),
   jsRound (b.width * scaleX), jsRound (b.height * scaleY)⟩

/-- The observable result of a successful `getCroppedImage` call: the
canvas (output buffer) dimensions and the sampled source rectangle. -/
structure RenderResult where
  canvasWidth : ℤ
  canvasHeight : ℤ
  source : SourceRect
deriving DecidableEq, Repr

/-- `getCroppedImage` (lines 260-307).  `ctxOk` models
`canvas.getContext('2d')` being non-null and `imgOk` models
`imageRef.current` being non-null; the early return of `null` is `none`. -/
def getCroppedImage (ctxOk imgOk : Bool)
    (naturalW naturalH imgW imgH : ℚ) (s : EditorState) :
    Option RenderResult :=
  if ctxOk && imgOk then
    let scaleX := naturalW / imgW
    let scaleY := naturalH / imgH
    let cw := if isCustomRatio s && (s.customMode == CustomMode.pixels)
              then s.pixelWidth else jsRound (s.cropBox.width * scaleX)
    let ch := if isCustomRatio s && (s.customMode == CustomMode.pixels)
              then s.pixelHeight else jsRound (s.cropBox.height * scaleY)
    some ⟨cw, ch, toSource s.cropBox scaleX scaleY⟩
  else none

/-- The outcome of `handleCrop` (lines 309-314): the component state after
the call, and whether `onImageUpdate` and `onClose` were invoked. -/
structure CommitResult where
  finalState : EditorState
  imageUpdated : Bool
  closed : Bool
deriving DecidableEq, Repr

/-- `handleCrop`: aborts (no callbacks, no state change) when
`getCroppedImage` returns `null`; on success it invokes `onImageUpdate`
and `onClose` and still leaves the crop state untouched. -/
def handleCrop (ctxOk imgOk : Bool) (naturalW naturalH imgW imgH : ℚ)
    (s : EditorState) : CommitResult :=
  match getCroppedImage ctxOk imgOk naturalW naturalH imgW imgH s with
  | none => ⟨s, false, false⟩
  | some _ => ⟨s, true, true⟩

/-- The input sanitisation `Math.max(1, parseInt(v) || 1)` applied by the
custom width/height and pixel width/height inputs (lines 443, 459, 471,
487).  `none` models a `parseInt` result of `NaN` (non-numeric input);
`0` is falsy in JavaScript, so `parseInt(v) || 1` turns it into 1. -/
def setDimensionInput (raw : Option ℤ) : ℤ :=
  max 1 (match raw with
         | none => 1
         | some n => if n = 0 then 1 else n)

/-- User edits of the custom ratio / pixel dimension fields. -/
inductive InputEvent where
  | setCustomWidth (raw : Option ℤ)
  | setCustomHeight (raw : Option ℤ)
  | setPixelWidth (raw : Option ℤ)
  | setPixelHeight (raw : Option ℤ)
  | swapRatioDims
  | swapPixelDims

/-- Effect of one input event on the component state (the four `onChange`
handlers plus `swapRatioDimensions` / `swapPixelDimensions`). -/
def applyInputEvent (s : EditorState) : InputEvent → EditorState
  | .setCustomWidth raw => { s with customWidth := setDimensionInput raw }
  | .setCustomHeight raw => { s with customHeight := setDimensionInput raw }
  | .setPixelWidth raw => { s with pixelWidth := setDimensionInput raw }
  | .setPixelHeight raw => { s with pixelHeight := setDimensionInput raw }
  | .swapRatioDims =>
      { s with customWidth := s.customHeight, customHeight := s.customWidth }
  | .swapPixelDims =>
      { s with pixelWidth := s.pixelHeight, pixelHeight := s.pixelWidth }

/-- A sequence of input-field events, applied left to right. -/
def applyInputEvents (s : EditorState) : List InputEvent → EditorState
  | [] => s
  | ev :: rest => applyInputEvents (applyInputEvent s ev) rest

/-- The bounds invariant of the spec's §3 on the x axis. -/
def CropInvX (imgW : ℚ) (b : CropBox) : Prop :=
  0 ≤ b.x ∧ b.x + b.width ≤ imgW ∧ 50 ≤ b.width

/-- The bounds invariant of the spec's §3 on the y axis. -/
def CropInvY (imgH : ℚ) (b : CropBox) : Prop :=
  0 ≤ b.y ∧ b.y + b.height ≤ imgH ∧ 50 ≤ b.height

/-- The full bounds invariant: `0 ≤ x`, `0 ≤ y`, `x + width ≤ imgW`,
`y + height ≤ imgH`, `width ≥ 50`, `height ≥ 50`. -/
def CropInv (imgW imgH : ℚ) (b : CropBox) : Prop :=
  CropInvX imgW b ∧ CropInvY imgH b

instance (imgW : ℚ) (b : CropBox) : Decidable (CropInvX imgW b) := by
  unfold CropInvX; infer_instance

instance (imgH : ℚ) (b : CropBox) : Decidable (CropInvY imgH b) := by
  unfold CropInvY; infer_instance

instance (imgW imgH : ℚ) (b : CropBox) : Decidable (CropInv imgW imgH b) := by
  unfold CropInv; infer_instance

/- ### Helper lemmas about the clamping pattern and the resize stages -/

lemma le_clamp (lo v hi : ℚ) : lo ≤ max lo (min v hi) := le_max_left _ _

lemma clamp_le {lo hi : ℚ} (v : ℚ) (h : lo ≤ hi) : max lo (min v hi) ≤ hi :=
  max_le h (min_le_right _ _)

lemma ratioTruthy_some_of_ne {r : ℚ} (hr : r ≠ 0) :
    ratioTruthy (some r) = true := by
  simp [ratioTruthy, hr]

lemma stageE_false (imgW : ℚ) (ratio : Option ℚ) (mx : ℚ) (b acc : CropBox) :
    stageE imgW ratio false mx b acc = acc := rfl

lemma stageW_false (ratio : Option ℚ) (mx : ℚ) (b acc : CropBox) :
    stageW ratio false mx b acc = acc := rfl

lemma stageS_false (imgH : ℚ) (ratio : Option ℚ) (my : ℚ) (b acc : CropBox) :
    stageS imgH ratio false my b acc = acc := rfl

lemma stageN_false (ratio : Option ℚ) (my : ℚ) (b acc : CropBox) :
    stageN ratio false my b acc = acc := rfl

lemma stageE_none (imgW mx : ℚ) (b acc : CropBox) :
    stageE imgW none true mx b acc =
      { acc with width := max 50 (min (mx - b.x) (imgW - b.x)) } := by
  simp [stageE, ratioTruthy]

lemma stageW_none (mx : ℚ) (b acc : CropBox) :
    stageW none true mx b acc =
      { acc with x := max 0 (min mx (b.x + b.width - 50)),
                 width := b.x + b.width - max 0 (min mx (b.x + b.width - 50)) } := by
  simp [stageW, ratioTruthy]

lemma stageS_none (imgH my : ℚ) (b acc : CropBox) :
    stageS imgH none true my b acc =
      { acc with height := max 50 (min (my - b.y) (imgH - b.y)) } := by
  simp [stageS, ratioTruthy]

lemma stageN_none (my : ℚ) (b acc : CropBox) :
    stageN none true my b acc =
      { acc with y := max 0 (min my (b.y + b.height - 50)),
                 height := b.y + b.height - max 0 (min my (b.y + b.height - 50)) } := by
  simp [stageN, ratioTruthy]

lemma stageClampX_id {imgW : ℚ} (ratio : Option ℚ) {acc : CropBox}
    (h : acc.x + acc.width ≤ imgW) : stageClampX imgW ratio acc = acc := by
  unfold stageClampX
  rw [if_neg (not_lt.mpr h)]

lemma stageClampY_id {imgH : ℚ} (ratio : Option ℚ) {acc : CropBox}
    (h : acc.y + acc.height ≤ imgH) : stageClampY imgH ratio acc = acc := by
  unfold stageClampY
  rw [if_neg (not_lt.mpr h)]

/-- When a rectangle already satisfies the bounds invariant, neither
boundary-correction pass changes it. -/
lemma clamps_inv {imgW imgH : ℚ} (ratio : Option ℚ) {c : CropBox}
    (h : CropInv imgW imgH c) :
    CropInv imgW imgH (stageClampY imgH ratio (stageClampX imgW ratio c)) := by
  rw [stageClampX_id ratio h.1.2.1, stageClampY_id ratio h.2.2.1]
  exact h

/-- The translating branch of `handleMouseMove` preserves the bounds
invariant. -/
lemma translateMove_inv {imgW imgH : ℚ} {b : CropBox} (hb : CropInv imgW imgH b)
    (sx sy mx my : ℚ) :
    CropInv imgW imgH (translateMove imgW imgH sx sy mx my b) := by
  obtain ⟨⟨hx0, hxw, hw50⟩, ⟨hy0, hyh, hh50⟩⟩ := hb
  unfold translateMove
  refine ⟨⟨le_clamp _ _ _, ?_, hw50⟩, ⟨le_clamp _ _ _, ?_, hh50⟩⟩ <;> dsimp only
  · have := clamp_le (mx - sx) (by linarith : (0:ℚ) ≤ imgW - b.width)
    linarith
  · have := clamp_le (my - sy) (by linarith : (0:ℚ) ≤ imgH - b.height)
    linarith

/-- With no effective ratio (aspect lock disabled), the resizing branch of
`handleMouseMove` preserves the bounds invariant, for every handle and
pointer position. -/
lemma resizeMove_free_inv {imgW imgH : ℚ} {b : CropBox} (hb : CropInv imgW imgH b)
    (h : Handle) (mx my : ℚ) :
    CropInv imgW imgH (resizeMove imgW imgH none h mx my b) := by
  obtain ⟨⟨hx0, hxw, hw50⟩, ⟨hy0, hyh, hh50⟩⟩ := hb
  have hEc : (50:ℚ) ≤ imgW - b.x := by linarith
  have hSc : (50:ℚ) ≤ imgH - b.y := by linarith
  have hWc : (0:ℚ) ≤ b.x + b.width - 50 := by linarith
  have hNc : (0:ℚ) ≤ b.y + b.height - 50 := by linarith
  have hE1 := le_clamp 50 (mx - b.x) (imgW - b.x)
  have hE2 := clamp_le (mx - b.x) hEc
  have hW1 := le_clamp 0 mx (b.x + b.width - 50)
  have hW2 := clamp_le mx hWc
  have hS1 := le_clamp 50 (my - b.y) (imgH - b.y)
  have hS2 := clamp_le (my - b.y) hSc
  have hN1 := le_clamp 0 my (b.y + b.height - 50)
  have hN2 := clamp_le my hNc
  cases h with
  | e =>
    rw [resizeMove]
    simp only [Handle.hasE, Handle.hasW, Handle.hasS, Handle.hasN,
               stageE_none, stageW_false, stageS_false, stageN_false]
    exact clamps_inv none
      ⟨⟨hx0, by dsimp only; linarith, by dsimp only; linarith⟩,
       ⟨hy0, hyh, hh50⟩⟩
  | w =>
    rw [resizeMove]
    simp only [Handle.hasE, Handle.hasW, Handle.hasS, Handle.hasN,
               stageE_false, stageW_none, stageS_false, stageN_false]
    exact clamps_inv none
      ⟨⟨by dsimp only; linarith, by dsimp only; linarith, by dsimp only; linarith⟩,
       ⟨hy0, hyh, hh50⟩⟩
  | s =>
    rw [resizeMove]
    simp only [Handle.hasE, Handle.hasW, Handle.hasS, Handle.hasN,
               stageE_false, stageW_false, stageS_none, stageN_false]
    exact clamps_inv none
      ⟨⟨hx0, hxw, hw50⟩,
       ⟨hy0, by dsimp only; linarith, by dsimp only; linarith⟩⟩
  | n =>
    rw [resizeMove]
    simp only [Handle.hasE, Handle.hasW, Handle.hasS, Handle.hasN,
               stageE_false, stageW_false, stageS_false, stageN_none]
    exact clamps_inv none
      ⟨⟨hx0, hxw, hw50⟩,
       ⟨by dsimp only; linarith, by dsimp only; linarith, by dsimp only; linarith⟩⟩
  | ne =>
    rw [resizeMove]
    simp only [Handle.hasE, Handle.hasW, Handle.hasS, Handle.hasN,
               stageE_none, stageW_false, stageS_false, stageN_none]
    exact clamps_inv none
      ⟨⟨hx0, by dsimp only; linarith, by dsimp only; linarith⟩,
       ⟨by dsimp only; linarith, by dsimp only; linarith, by dsimp only; linarith⟩⟩
  | nw =>
    rw [resizeMove]
    simp only [Handle.hasE, Handle.hasW, Handle.hasS, Handle.hasN,
               stageE_false, stageW_none, stageS_false, stageN_none]
    exact clamps_inv none
      ⟨⟨by dsimp only; linarith, by dsimp only; linarith, by dsimp only; linarith⟩,
       ⟨by dsimp only; linarith, by dsimp only; linarith, by dsimp only; linarith⟩⟩
  | se =>
    rw [resizeMove]
    simp only [Handle.hasE, Handle.hasW, Handle.hasS, Handle.hasN,
               stageE_none, stageW_false, stageS_none, stageN_false]
    exact clamps_inv none
      ⟨⟨hx0, by dsimp only; linarith, by dsimp only; linarith⟩,
       ⟨hy0, by dsimp only; linarith, by dsimp only; linarith⟩⟩
  | sw =>
    rw [resizeMove]
    simp only [Handle.hasE, Handle.hasW, Handle.hasS, Handle.hasN,
               stageE_false, stageW_none, stageS_none, stageN_false]
    exact clamps_inv none
      ⟨⟨by dsimp only; linarith, by dsimp only; linarith, by dsimp only; linarith⟩,
       ⟨hy0, by dsimp only; linarith, by dsimp only; linarith⟩⟩

/-- Initialization with no effective ratio and no pixel target establishes
the bounds invariant as soon as both display dimensions are at least
62.5 (so that 80% of each is at least the 50-pixel minimum). -/
lemma initializeCropBox_free_inv {imgW imgH : ℚ}
    (hW : 125/2 ≤ imgW) (hH : 125/2 ≤ imgH) (naturalW naturalH pw ph : ℚ) :
    CropInv imgW imgH
      (initializeCropBox naturalW naturalH imgW imgH false pw ph none) := by
  unfold initializeCropBox
  simp only [ratioTruthy, Bool.false_eq_true, if_false, lt_irrefl]
  refine ⟨⟨by linarith, by dsimp only; linarith, by dsimp only; linarith⟩,
          ⟨by dsimp only; linarith, by dsimp only; linarith, by dsimp only; linarith⟩⟩

/-- With no effective ratio, every sequence of translate and resize
operations (wheel events allowed only without the shift modifier, where
they do not touch the rectangle) preserves the bounds invariant. -/
lemma applyOps_free_inv {imgW imgH : ℚ} (ops : List CropOp)
    (hops : ∀ sh dy, CropOp.wheel sh dy ∈ ops → sh = false)
    {b : CropBox} (hb : CropInv imgW imgH b) :
    CropInv imgW imgH (applyOps imgW imgH none b ops) := by
  induction ops generalizing b with
  | nil => exact hb
  | cons op rest ih =>
    rw [applyOps]
    apply ih (fun sh dy hmem => hops sh dy (List.mem_cons_of_mem _ hmem))
    cases op with
    | translate sx sy mx my => exact translateMove_inv hb sx sy mx my
    | resize h mx my => exact resizeMove_free_inv hb h mx my
    | wheel sh dy =>
      have hsh := hops sh dy (List.mem_cons_self _ _)
      subst hsh
      simpa [applyOp] using hb

/- ### Ratio-locked resize: exact ratio propagation -/

lemma ratioGet_some (r : ℚ) : ratioGet (some r) = r := rfl

lemma stageE_some {r : ℚ} (hr : r ≠ 0) (imgW mx : ℚ) (b acc : CropBox) :
    stageE imgW (some r) true mx b acc =
      { acc with width := max 50 (min (mx - b.x) (imgW - b.x)),
                 height := max 50 (min (mx - b.x) (imgW - b.x)) / r } := by
  simp [stageE, ratioTruthy_some_of_ne hr, ratioGet]

lemma stageW_some {r : ℚ} (hr : r ≠ 0) (mx : ℚ) (b acc : CropBox) :
    stageW (some r) true mx b acc =
      { acc with
          x := max 0 (min mx (b.x + b.width - 50)),
          width := b.x + b.width - max 0 (min mx (b.x + b.width - 50)),
          height := (b.x + b.width - max 0 (min mx (b.x + b.width - 50))) / r,
          y := b.y +
            (b.height -
              (b.x + b.width - max 0 (min mx (b.x + b.width - 50))) / r) / 2 } := by
  simp [stageW, ratioTruthy_some_of_ne hr, ratioGet]

lemma stageS_some {r : ℚ} (hr : r ≠ 0) (imgH my : ℚ) (b acc : CropBox) :
    stageS imgH (some r) true my b acc =
      { acc with height := max 50 (min (my - b.y) (imgH - b.y)),
                 width := max 50 (min (my - b.y) (imgH - b.y)) * r } := by
  simp [stageS, ratioTruthy_some_of_ne hr, ratioGet]

lemma stageN_some {r : ℚ} (hr : r ≠ 0) (my : ℚ) (b acc : CropBox) :
    stageN (some r) true my b acc =
      { acc with
          y := max 0 (min my (b.y + b.height - 50)),
          height := b.y + b.height - max 0 (min my (b.y + b.height - 50)),
          width := (b.y + b.height - max 0 (min my (b.y + b.height - 50))) * r,
          x := b.x +
            (b.width -
              (b.y + b.height - max 0 (min my (b.y + b.height - 50))) * r) / 2 } := by
  simp [stageN, ratioTruthy_some_of_ne hr, ratioGet]

lemma stageClampX_some {r : ℚ} (hr : r ≠ 0) (imgW : ℚ) (acc : CropBox) :
    stageClampX imgW (some r) acc =
      if acc.x + acc.width > imgW then
        { acc with width := imgW - acc.x, height := (imgW - acc.x) / r }
      else acc := by
  simp [stageClampX, ratioTruthy_some_of_ne hr, ratioGet]

lemma stageClampY_some {r : ℚ} (hr : r ≠ 0) (imgH : ℚ) (acc : CropBox) :
    stageClampY imgH (some r) acc =
      if acc.y + acc.height > imgH then
        { acc with height := imgH - acc.y, width := (imgH - acc.y) * r }
      else acc := by
  simp [stageClampY, ratioTruthy_some_of_ne hr, ratioGet]

/-- The intermediate state of a ratio-locked resize: strictly positive
height, width exactly `height * r`, and origin strictly inside the display
box (what the boundary-correction passes need to keep the ratio exact). -/
def RatioState (imgW imgH r : ℚ) (c : CropBox) : Prop :=
  0 < c.height ∧ c.width = c.height * r ∧ c.x < imgW ∧ c.y < imgH

lemma stageClampX_ratio {imgW imgH r : ℚ} (hr : 0 < r) {c : CropBox}
    (h : RatioState imgW imgH r c) :
    RatioState imgW imgH r (stageClampX imgW (some r) c) := by
  obtain ⟨hh, hwr, hxW, hyH⟩ := h
  rw [stageClampX_some hr.ne']
  split_ifs with hcond
  · refine ⟨?_, ?_, ?_, ?_⟩ <;> dsimp only
    · exact div_pos (by linarith) hr
    · exact (div_mul_cancel₀ _ hr.ne').symm
    · exact hxW
    · exact hyH
  · exact ⟨hh, hwr, hxW, hyH⟩

lemma stageClampY_ratio {imgW imgH r : ℚ} (hr : 0 < r) {c : CropBox}
    (h : RatioState imgW imgH r c) :
    RatioState imgW imgH r (stageClampY imgH (some r) c) := by
  obtain ⟨hh, hwr, hxW, hyH⟩ := h
  rw [stageClampY_some hr.ne']
  split_ifs with hcond
  · exact ⟨by dsimp only; linarith, rfl, hxW, hyH⟩
  · exact ⟨hh, hwr, hxW, hyH⟩

/-- After a ratio-locked resize from an in-bounds rectangle, the resulting
rectangle has positive height and width exactly `height * r`, every
handle, pointer position and boundary correction included. -/
lemma resizeMove_ratio {imgW imgH r : ℚ} (hr : 0 < r) {b : CropBox}
    (hb : CropInv imgW imgH b) (h : Handle) (mx my : ℚ) :
    RatioState imgW imgH r (resizeMove imgW imgH (some r) h mx my b) := by
  obtain ⟨⟨hx0, hxw, hw50⟩, ⟨hy0, hyh, hh50⟩⟩ := hb
  have hEc : (50:ℚ) ≤ imgW - b.x := by linarith
  have hSc : (50:ℚ) ≤ imgH - b.y := by linarith
  have hWc : (0:ℚ) ≤ b.x + b.width - 50 := by linarith
  have hNc : (0:ℚ) ≤ b.y + b.height - 50 := by linarith
  have hE1 := le_clamp 50 (mx - b.x) (imgW - b.x)
  have hW2 := clamp_le mx hWc
  have hS1 := le_clamp 50 (my - b.y) (imgH - b.y)
  have hN2 := clamp_le my hNc
  have hW0 := le_clamp 0 mx (b.x + b.width - 50)
  have hN0 := le_clamp 0 my (b.y + b.height - 50)
  have hEpos : (0:ℚ) < max 50 (min (mx - b.x) (imgW - b.x)) := by linarith
  have hWpos : (0:ℚ) <
      b.x + b.width - max 0 (min mx (b.x + b.width - 50)) := by linarith
  have hSpos : (0:ℚ) < max 50 (min (my - b.y) (imgH - b.y)) := by linarith
  have hNpos : (0:ℚ) <
      b.y + b.height - max 0 (min my (b.y + b.height - 50)) := by linarith
  have hEdiv : (0:ℚ) < max 50 (min (mx - b.x) (imgW - b.x)) / r :=
    div_pos hEpos hr
  have hWdiv : (0:ℚ) <
      (b.x + b.width - max 0 (min mx (b.x + b.width - 50))) / r :=
    div_pos hWpos hr
  have hNmul : (0:ℚ) <
      (b.y + b.height - max 0 (min my (b.y + b.height - 50))) * r :=
    mul_pos hNpos hr
  cases h with
  | e =>
    rw [resizeMove]
    simp only [Handle.hasE, Handle.hasW, Handle.hasS, Handle.hasN,
               stageE_some hr.ne', stageW_false, stageS_false, stageN_false]
    refine stageClampY_ratio hr (stageClampX_ratio hr ?_)
    refine ⟨hEdiv, ?_, ?_, ?_⟩ <;> dsimp only
    · exact (div_mul_cancel₀ _ hr.ne').symm
    · linarith
    · linarith
  | w =>
    rw [resizeMove]
    simp only [Handle.hasE, Handle.hasW, Handle.hasS, Handle.hasN,
               stageE_false, stageW_some hr.ne', stageS_false, stageN_false]
    refine stageClampY_ratio hr (stageClampX_ratio hr ?_)
    refine ⟨hWdiv, ?_, ?_, ?_⟩ <;> dsimp only
    · exact (div_mul_cancel₀ _ hr.ne').symm
    · linarith
    · linarith
  | s =>
    rw [resizeMove]
    simp only [Handle.hasE, Handle.hasW, Handle.hasS, Handle.hasN,
               stageE_false, stageW_false, stageS_some hr.ne', stageN_false]
    refine stageClampY_ratio hr (stageClampX_ratio hr ?_)
    refine ⟨hSpos, rfl, ?_, ?_⟩ <;> dsimp only
    · linarith
    · linarith
  | n =>
    rw [resizeMove]
    simp only [Handle.hasE, Handle.hasW, Handle.hasS, Handle.hasN,
               stageE_false, stageW_false, stageS_false, stageN_some hr.ne']
    refine stageClampY_ratio hr (stageClampX_ratio hr ?_)
    refine ⟨hNpos, rfl, ?_, ?_⟩ <;> dsimp only
    · linarith
    · linarith
  | ne =>
    rw [resizeMove]
    simp only [Handle.hasE, Handle.hasW, Handle.hasS, Handle.hasN,
               stageE_some hr.ne', stageW_false, stageS_false,
               stageN_some hr.ne']
    refine stageClampY_ratio hr (stageClampX_ratio hr ?_)
    refine ⟨hNpos, rfl, ?_, ?_⟩ <;> dsimp only
    · linarith
    · linarith
  | nw =>
    rw [resizeMove]
    simp only [Handle.hasE, Handle.hasW, Handle.hasS, Handle.hasN,
               stageE_false, stageW_some hr.ne', stageS_false,
               stageN_some hr.ne']
    refine stageClampY_ratio hr (stageClampX_ratio hr ?_)
    refine ⟨hNpos, rfl, ?_, ?_⟩ <;> dsimp only
    · linarith
    · linarith
  | se =>
    rw [resizeMove]
    simp only [Handle.hasE, Handle.hasW, Handle.hasS, Handle.hasN,
               stageE_some hr.ne', stageW_false, stageS_some hr.ne',
               stageN_false]
    refine stageClampY_ratio hr (stageClampX_ratio hr ?_)
    refine ⟨hSpos, rfl, ?_, ?_⟩ <;> dsimp only
    · linarith
    · linarith
  | sw =>
    rw [resizeMove]
    simp only [Handle.hasE, Handle.hasW, Handle.hasS, Handle.hasN,
               stageE_false, stageW_some hr.ne', stageS_some hr.ne',
               stageN_false]
    refine stageClampY_ratio hr (stageClampX_ratio hr ?_)
    refine ⟨hSpos, rfl, ?_, ?_⟩ <;> dsimp only
    · linarith
    · linarith

/- ### Claim C1 -/

/-- Claim C1, counterexample: from the crop rectangle initialized for a
1000×1000 display under the default 16:9 ratio (the state machine's
initial constraint), a single resize at the east handle with the pointer
50 display pixels right of the box's left edge yields height
50/(16/9) = 28.125 < 50, violating the bounds invariant. -/
theorem c1_counterexample :
    ¬ CropInv 1000 1000
        (applyOps 1000 1000 (currentRatioVal initialEditorState)
          (initializeCropBox 2000 2000 1000 1000 false 1920 1080
            (currentRatioVal initialEditorState))
          [CropOp.resize Handle.e 150 0]) := by
  have hne : ((16:ℚ)/9) ≠ 0 := by norm_num
  have h0 : currentRatioVal initialEditorState = some (16/9) := by
    simp [currentRatioVal, initialEditorState, isCustomRatio, ASPECT_RATIOS]
  rw [h0]
  have h1 : initializeCropBox 2000 2000 1000 1000 false 1920 1080
      (some (16/9)) = ⟨100, 275, 800, 450⟩ := by
    simp only [initializeCropBox, ratioTruthy_some_of_ne hne, ratioGet]
    norm_num
  rw [h1]
  have h2 : applyOps 1000 1000 (some (16/9)) ⟨100, 275, 800, 450⟩
      [CropOp.resize Handle.e 150 0] =
      resizeMove 1000 1000 (some (16/9)) Handle.e 150 0
        ⟨100, 275, 800, 450⟩ := rfl
  rw [h2]
  have h3 : resizeMove 1000 1000 (some (16/9)) Handle.e 150 0
      ⟨100, 275, 800, 450⟩ = ⟨100, 275, 50, 225/8⟩ := by
    simp only [resizeMove, Handle.hasE, Handle.hasW, Handle.hasS,
               Handle.hasN, stageE_some hne, stageW_false, stageS_false,
               stageN_false]
    rw [stageClampX_some hne, stageClampY_some hne]
    norm_num [min_def, max_def]
  rw [h3]
  intro hinv
  have hcontra := hinv.2.2.2
  norm_num at hcontra

/-- Claim C1 (amended): with the aspect lock disabled (no effective
ratio) and no pixel target at initialization, every sequence of
translate, resize-by-handle, and non-shift wheel operations starting from
the initialized crop rectangle keeps `0 ≤ x`, `0 ≤ y`,
`x + width ≤ displayWidth`, `y + height ≤ displayHeight`, `width ≥ 50`
and `height ≥ 50`, provided both display dimensions are at least 62.5.
Ratio-locked resizes can violate the minimum size and push the origin out
of bounds, and shift-wheel scaling can shrink the box below 50, so those
operations are excluded. -/
theorem c1_amended (naturalW naturalH imgW imgH pw ph : ℚ)
    (hW : 125/2 ≤ imgW) (hH : 125/2 ≤ imgH) (ops : List CropOp)
    (hops : ∀ sh dy, CropOp.wheel sh dy ∈ ops → sh = false) :
    CropInv imgW imgH
      (applyOps imgW imgH none
        (initializeCropBox naturalW naturalH imgW imgH false pw ph none)
        ops) :=
  applyOps_free_inv ops hops
    (initializeCropBox_free_inv hW hH naturalW naturalH pw ph)

/-- Witness for `c1_amended` at a concrete display, translate and corner
resize included. -/
theorem c1_amended_witness :
    CropInv 1000 1000
      (applyOps 1000 1000 none
        (initializeCropBox 2000 2000 1000 1000 false 1920 1080 none)
        [CropOp.translate 0 0 5000 5000, CropOp.resize Handle.se 900 900,
         CropOp.wheel false 3]) :=
  c1_amended 2000 2000 1000 1000 1920 1080 (by norm_num) (by norm_num) _
    (by intro sh dy hmem; simp at hmem; exact hmem.1)

/- ### Claim C2 -/

/-- Claim C2: when a ratio constraint `r` is active, any single
resize-by-handle operation on an in-bounds crop rectangle yields
`|width/height − r| < 0.01`; in this exact-arithmetic model the ratio is
in fact reproduced exactly, boundary-correction pass included. -/
theorem c2_ratio_preservation {imgW imgH r : ℚ} (hr : 0 < r) {b : CropBox}
    (hb : CropInv imgW imgH b) (h : Handle) (mx my : ℚ) :
    |(resizeMove imgW imgH (some r) h mx my b).width /
        (resizeMove imgW imgH (some r) h mx my b).height - r| < 1/100 := by
  obtain ⟨hh, hwr, -, -⟩ := resizeMove_ratio hr hb h mx my
  rw [hwr, mul_comm, mul_div_assoc, div_self hh.ne', mul_one, sub_self,
      abs_zero]
  norm_num

/-- Witness for `c2_ratio_preservation`: the 16:9-locked east-handle
shrink of the initialized 1000×1000 rectangle. -/
theorem c2_witness :
    |(resizeMove 1000 1000 (some (16/9)) Handle.e 150 0
        ⟨100, 275, 800, 450⟩).width /
      (resizeMove 1000 1000 (some (16/9)) Handle.e 150 0
        ⟨100, 275, 800, 450⟩).height - 16/9| < 1/100 :=
  c2_ratio_preservation (by norm_num)
    (by norm_num [CropInv, CropInvX, CropInvY]) Handle.e 150 0

/- ### Claim C3 -/

/-- Claim C3: in pixel-target mode (Custom entry selected, pixels sub-mode),
a successful render always produces a buffer of exactly
`pixelWidth × pixelHeight`, while the sampled source region is still
`toSource` of the live rectangle, whatever its display-space size. -/
theorem c3_pixel_target_render (naturalW naturalH imgW imgH : ℚ)
    (s : EditorState) (hcustom : isCustomRatio s = true)
    (hmode : s.customMode = CustomMode.pixels) :
    getCroppedImage true true naturalW naturalH imgW imgH s =
      some ⟨s.pixelWidth, s.pixelHeight,
            toSource s.cropBox (naturalW / imgW) (naturalH / imgH)⟩ := by
  simp [getCroppedImage, hcustom, hmode]

/-- A state in pixel-target mode whose live rectangle is square while the
pixel target is 16:9. -/
def c3State : EditorState :=
  { initialEditorState with
    currentRatioIndex := 7
    customMode := CustomMode.pixels
    cropBox := ⟨0, 0, 100, 100⟩ }

/-- Witness for `c3_pixel_target_render`: a square live rectangle still
renders to exactly 1920×1080, sampling the square 100×100 source region —
output dimensions and sampled region diverge. -/
theorem c3_witness :
    getCroppedImage true true 1000 1000 1000 1000 c3State =
      some ⟨1920, 1080, ⟨0, 0, 100, 100⟩⟩ ∧
    (1920 : ℚ) / 1080 ≠ (100 : ℚ) / 100 := by
  constructor
  · rw [c3_pixel_target_render 1000 1000 1000 1000 c3State rfl rfl]
    norm_num [toSource, jsRound, c3State, initialEditorState]
  · norm_num

/- ### Claim C4 -/

/-- A state with the aspect lock disabled while the Custom catalog entry
and the pixels sub-mode are still selected. -/
def c4State : EditorState :=
  { initialEditorState with
    lockAspectRatio := false
    currentRatioIndex := 7
    customMode := CustomMode.pixels
    cropBox := ⟨0, 0, 100, 100⟩ }

/-- Claim C4, counterexample: with the lock disabled but Custom + pixels
still selected, the render is not a direct unscaled copy — the canvas is
forced to the 1920×1080 pixel target even though the copy dimensions
would be 100×100 (`getCroppedImage` never consults `lockAspectRatio`). -/
theorem c4_counterexample :
    c4State.lockAspectRatio = false ∧
    getCroppedImage true true 1000 1000 1000 1000 c4State ≠
      some ⟨jsRound (c4State.cropBox.width * (1000 / 1000)),
            jsRound (c4State.cropBox.height * (1000 / 1000)),
            toSource c4State.cropBox (1000 / 1000) (1000 / 1000)⟩ := by
  refine ⟨rfl, ?_⟩
  intro hcontra
  have h1 : (getCroppedImage true true 1000 1000 1000 1000 c4State).map
      RenderResult.canvasWidth = some 1920 := by
    simp [getCroppedImage, c4State, initialEditorState, isCustomRatio,
          ASPECT_RATIOS]
  rw [hcontra] at h1
  simp only [Option.map_some', Option.some.injEq] at h1
  norm_num [jsRound, c4State, initialEditorState] at h1

/-- Claim C4 (amended): when the aspect lock is disabled the effective
ratio is `None`, so no ratio is applied by resize or wheel mutations; but
the commit-time render still supplies the pixel target exactly when the
Custom entry with pixels sub-mode is selected, regardless of the lock —
the direct unscaled copy happens only outside that mode. -/
theorem c4_lock_disabled (s : EditorState)
    (hlock : s.lockAspectRatio = false) :
    currentRatioVal s = none ∧
    (∀ naturalW naturalH imgW imgH : ℚ,
      (isCustomRatio s && (s.customMode == CustomMode.pixels)) = false →
      getCroppedImage true true naturalW naturalH imgW imgH s =
        some ⟨jsRound (s.cropBox.width * (naturalW / imgW)),
              jsRound (s.cropBox.height * (naturalH / imgH)),
              toSource s.cropBox (naturalW / imgW) (naturalH / imgH)⟩) ∧
    (∀ naturalW naturalH imgW imgH : ℚ,
      (isCustomRatio s && (s.customMode == CustomMode.pixels)) = true →
      getCroppedImage true true naturalW naturalH imgW imgH s =
        some ⟨s.pixelWidth, s.pixelHeight,
              toSource s.cropBox (naturalW / imgW) (naturalH / imgH)⟩) := by
  refine ⟨by simp [currentRatioVal, hlock], ?_, ?_⟩
  · intro nW nH iW iH hmode
    simp [getCroppedImage, hmode]
  · intro nW nH iW iH hmode
    simp [getCroppedImage, hmode]

/-- Witness for `c4_lock_disabled` at the lock-off pixel-mode state. -/
theorem c4_witness :
    currentRatioVal c4State = none ∧
    getCroppedImage true true 1000 1000 1000 1000 c4State =
      some ⟨1920, 1080,
            toSource c4State.cropBox (1000 / 1000) (1000 / 1000)⟩ := by
  refine ⟨(c4_lock_disabled c4State rfl).1, ?_⟩
  rw [(c4_lock_disabled c4State rfl).2.2 1000 1000 1000 1000 (by rfl)]
  rfl

/- ### Claim C5 -/

/-- Claim C5: non-pixel-target initialization tries width-first
(`width = 0.8·displayWidth`), falls back to height-first when the implied
height exceeds `0.8·displayHeight`, and centers; the result never exceeds
80% of either display dimension, and on the two quoted geometries it
produces exactly the quoted rectangles (426.67 and 286.67 being the
two-decimal renderings of 1280/3 and 860/3). -/
theorem c5_init_ratio_policy :
    (∀ (naturalW naturalH imgW imgH pw ph : ℚ) (ratio : Option ℚ),
      0 < imgW → 0 < imgH → (∀ r, ratio = some r → 0 < r) →
      (initializeCropBox naturalW naturalH imgW imgH false pw ph
          ratio).width ≤ imgW * (8/10) ∧
      (initializeCropBox naturalW naturalH imgW imgH false pw ph
          ratio).height ≤ imgH * (8/10) ∧
      (initializeCropBox naturalW naturalH imgW imgH false pw ph ratio).x =
        (imgW - (initializeCropBox naturalW naturalH imgW imgH false pw ph
          ratio).width) / 2 ∧
      (initializeCropBox naturalW naturalH imgW imgH false pw ph ratio).y =
        (imgH - (initializeCropBox naturalW naturalH imgW imgH false pw ph
          ratio).height) / 2) ∧
    initializeCropBox 2000 2000 1000 1000 false 1920 1080 (some (16/9)) =
      ⟨100, 275, 800, 450⟩ ∧
    initializeCropBox 2000 600 1000 300 false 1920 1080 (some (16/9)) =
      ⟨860/3, 30, 1280/3, 240⟩ ∧
    |(1280:ℚ)/3 - 42667/100| < 1/100 ∧
    |(860:ℚ)/3 - 28667/100| < 1/100 := by
  have hne : ((16:ℚ)/9) ≠ 0 := by norm_num
  refine ⟨?_, ?_, ?_, ?_, ?_⟩
  · intro naturalW naturalH imgW imgH pw ph ratio hW hH hr
    cases ratio with
    | none =>
      simp only [initializeCropBox, ratioTruthy, Bool.false_eq_true,
                 if_false, lt_irrefl]
      refine ⟨le_refl _, le_refl _, trivial, trivial⟩
    | some r =>
      have hrpos : 0 < r := hr r rfl
      simp only [initializeCropBox, ratioTruthy_some_of_ne hrpos.ne',
                 ratioGet, Bool.false_eq_true, if_false, if_true]
      split_ifs with hcase
      · refine ⟨?_, le_refl _, trivial, trivial⟩
        exact le_of_lt ((lt_div_iff₀ hrpos).mp hcase)
      · refine ⟨le_refl _, ?_, trivial, trivial⟩
        exact not_lt.mp hcase
  · simp only [initializeCropBox, ratioTruthy_some_of_ne hne, ratioGet]
    norm_num
  · simp only [initializeCropBox, ratioTruthy_some_of_ne hne, ratioGet]
    norm_num
  · rw [abs_lt]; constructor <;> norm_num
  · rw [abs_lt]; constructor <;> norm_num

/-- Witness for the universally quantified part of `c5_init_ratio_policy`. -/
theorem c5_witness :
    (initializeCropBox 500 500 10 20 false 0 0 (some 2)).width ≤
      10 * (8/10) :=
  (c5_init_ratio_policy.1 500 500 10 20 0 0 (some 2) (by norm_num)
    (by norm_num)
    (fun r hr => Option.some.inj hr ▸ (by norm_num : (0:ℚ) < 2))).1

/- ### Claim C6 -/

/-- Claim C6, counterexample: for a 1000×1000 display at natural scale 1
and pixel target 900×900, the candidate box (900×900) exceeds 80% of the
display (800) — the claim's trigger — yet `initializeCropBox` leaves it
at 900, because the code's trigger is exceeding the display box itself
(100%), not 80% of it. -/
theorem c6_counterexample :
    (initializeCropBox 1000 1000 1000 1000 true 900 900 none).width = 900 ∧
    (initializeCropBoxSpec 1000 1000 1000 1000 900 900).width = 800 ∧
    (900:ℚ) > 1000 * (8/10) := by
  refine ⟨?_, ?_, by norm_num⟩
  · simp only [initializeCropBox]
    norm_num
  · simp only [initializeCropBoxSpec]
    norm_num [min_def]

/-- Claim C6 (amended): pixel-target initialization computes the
candidate display-space box `tw/scaleX × th/scaleY`; whenever the
candidate exceeds the display box (100%, not 80%) in either dimension, it
is uniformly downscaled by `min(displayW/boxW, displayH/boxH)·0.8`,
which brings it within 80% of both display dimensions and preserves the
candidate's (hence the target's) aspect ratio; the box is then centered. -/
theorem c6_pixel_target_init (naturalW naturalH imgW imgH pw ph bw bh : ℚ)
    (hW : 0 < imgW) (hH : 0 < imgH) (hbw0 : 0 < bw) (hbh0 : 0 < bh)
    (hbw : bw = pw / (naturalW / imgW)) (hbh : bh = ph / (naturalH / imgH)) :
    (¬(bw > imgW ∨ bh > imgH) →
      initializeCropBox naturalW naturalH imgW imgH true pw ph none =
        ⟨(imgW - bw) / 2, (imgH - bh) / 2, bw, bh⟩) ∧
    ((bw > imgW ∨ bh > imgH) →
      initializeCropBox naturalW naturalH imgW imgH true pw ph none =
        ⟨(imgW - bw * (min (imgW / bw) (imgH / bh) * (8/10))) / 2,
         (imgH - bh * (min (imgW / bw) (imgH / bh) * (8/10))) / 2,
         bw * (min (imgW / bw) (imgH / bh) * (8/10)),
         bh * (min (imgW / bw) (imgH / bh) * (8/10))⟩ ∧
      bw * (min (imgW / bw) (imgH / bh) * (8/10)) ≤ imgW * (8/10) ∧
      bh * (min (imgW / bw) (imgH / bh) * (8/10)) ≤ imgH * (8/10)) ∧
    (initializeCropBox naturalW naturalH imgW imgH true pw ph none).width /
      (initializeCropBox naturalW naturalH imgW imgH true pw ph
        none).height = bw / bh := by
  have hsc : (0:ℚ) < min (imgW / bw) (imgH / bh) * (8/10) :=
    mul_pos (lt_min (div_pos hW hbw0) (div_pos hH hbh0)) (by norm_num)
  have hinit : initializeCropBox naturalW naturalH imgW imgH true pw ph none
      = if bw > imgW ∨ bh > imgH then
          ⟨(imgW - bw * (min (imgW / bw) (imgH / bh) * (8/10))) / 2,
           (imgH - bh * (min (imgW / bw) (imgH / bh) * (8/10))) / 2,
           bw * (min (imgW / bw) (imgH / bh) * (8/10)),
           bh * (min (imgW / bw) (imgH / bh) * (8/10))⟩
        else ⟨(imgW - bw) / 2, (imgH - bh) / 2, bw, bh⟩ := by
    simp only [initializeCropBox, ← hbw, ← hbh, if_true]
    split_ifs with hcond
    · rfl
    · rfl
  have hboundW : bw * (min (imgW / bw) (imgH / bh) * (8/10)) ≤
      imgW * (8/10) := by
    have h1 : min (imgW / bw) (imgH / bh) * (8/10) ≤
        imgW / bw * (8/10) :=
      mul_le_mul_of_nonneg_right (min_le_left _ _) (by norm_num)
    have h2 : bw * (min (imgW / bw) (imgH / bh) * (8/10)) ≤
        bw * (imgW / bw * (8/10)) :=
      mul_le_mul_of_nonneg_left h1 hbw0.le
    have h3 : bw * (imgW / bw * (8/10)) = imgW * (8/10) := by
      field_simp
      ring
    linarith
  have hboundH : bh * (min (imgW / bw) (imgH / bh) * (8/10)) ≤
      imgH * (8/10) := by
    have h1 : min (imgW / bw) (imgH / bh) * (8/10) ≤
        imgH / bh * (8/10) :=
      mul_le_mul_of_nonneg_right (min_le_right _ _) (by norm_num)
    have h2 : bh * (min (imgW / bw) (imgH / bh) * (8/10)) ≤
        bh * (imgH / bh * (8/10)) :=
      mul_le_mul_of_nonneg_left h1 hbh0.le
    have h3 : bh * (imgH / bh * (8/10)) = imgH * (8/10) := by
      field_simp
      ring
    linarith
  refine ⟨?_, ?_, ?_⟩
  · intro hcond
    rw [hinit, if_neg hcond]
  · intro hcond
    exact ⟨by rw [hinit, if_pos hcond], hboundW, hboundH⟩
  · rw [hinit]
    split_ifs with hcond
    · dsimp only
      rw [mul_div_mul_right _ _ hsc.ne']
    · rfl

/-- Witness for `c6_pixel_target_init`: a 2000×1000 target on a 1000×1000
display at natural scale 1 triggers the downscale. -/
theorem c6_witness :
    initializeCropBox 1000 1000 1000 1000 true 2000 1000 none =
      ⟨(1000 - 2000 * (min ((1000:ℚ)/2000) ((1000:ℚ)/1000) * (8/10))) / 2,
       (1000 - 1000 * (min ((1000:ℚ)/2000) ((1000:ℚ)/1000) * (8/10))) / 2,
       2000 * (min ((1000:ℚ)/2000) ((1000:ℚ)/1000) * (8/10)),
       1000 * (min ((1000:ℚ)/2000) ((1000:ℚ)/1000) * (8/10))⟩ :=
  ((c6_pixel_target_init 1000 1000 1000 1000 2000 1000 2000 1000
    (by norm_num) (by norm_num) (by norm_num) (by norm_num)
    (by norm_num) (by norm_num)).2.1 (by norm_num)).1

/- ### Claim C7 -/

/-- JavaScript `Math.round` rounds halves toward positive infinity, which
on nonnegative inputs agrees with round-half-away-from-zero. -/
lemma jsRound_eq_roundHalfAwayFromZero {q : ℚ} (h : 0 ≤ q) :
    jsRound q = roundHalfAwayFromZero q := by
  rw [roundHalfAwayFromZero, if_pos h]; rfl

/-- Claim C7: without an active pixel target, a successful commit renders
a buffer of `round(width·scaleX) × round(height·scaleY)` and extracts the
source rectangle with each field rounded independently with
round-half-away-from-zero semantics (the fields being nonnegative), where
`scaleX = sourceWidth/displayWidth`, `scaleY = sourceHeight/displayHeight`. -/
theorem c7_direct_copy_render (naturalW naturalH imgW imgH : ℚ)
    (s : EditorState)
    (hmode : (isCustomRatio s && (s.customMode == CustomMode.pixels)) = false)
    (hx : 0 ≤ s.cropBox.x * (naturalW / imgW))
    (hy : 0 ≤ s.cropBox.y * (naturalH / imgH))
    (hw : 0 ≤ s.cropBox.width * (naturalW / imgW))
    (hh : 0 ≤ s.cropBox.height * (naturalH / imgH)) :
    getCroppedImage true true naturalW naturalH imgW imgH s =
      some ⟨roundHalfAwayFromZero (s.cropBox.width * (naturalW / imgW)),
            roundHalfAwayFromZero (s.cropBox.height * (naturalH / imgH)),
            ⟨roundHalfAwayFromZero (s.cropBox.x * (naturalW / imgW)),
             roundHalfAwayFromZero (s.cropBox.y * (naturalH / imgH)),
             roundHalfAwayFromZero (s.cropBox.width * (naturalW / imgW)),
             roundHalfAwayFromZero (s.cropBox.height * (naturalH / imgH))⟩⟩ := by
  simp [getCroppedImage, toSource, hmode,
        jsRound_eq_roundHalfAwayFromZero hx,
        jsRound_eq_roundHalfAwayFromZero hy,
        jsRound_eq_roundHalfAwayFromZero hw,
        jsRound_eq_roundHalfAwayFromZero hh]

/-- Witness for `c7_direct_copy_render`: display 1000×1000, source
2000×2000 (scale 2), rectangle ⟨10, 20, 100, 50⟩ renders a 200×100 copy
of source rectangle ⟨20, 40, 200, 100⟩. -/
theorem c7_witness :
    getCroppedImage true true 2000 2000 1000 1000
      { initialEditorState with cropBox := ⟨10, 20, 100, 50⟩ } =
      some ⟨200, 100, ⟨20, 40, 200, 100⟩⟩ := by
  rw [c7_direct_copy_render 2000 2000 1000 1000
    { initialEditorState with cropBox := ⟨10, 20, 100, 50⟩ } rfl
    (by norm_num [initialEditorState]) (by norm_num [initialEditorState])
    (by norm_num [initialEditorState]) (by norm_num [initialEditorState])]
  norm_num [roundHalfAwayFromZero, initialEditorState]

/- ### Claim C8 -/

/-- Claim C8: with the lock enabled and no shift modifier, a wheel event
steps the ratio selection forward (`deltaY > 0`) or backward
(`deltaY < 0`) through the 8-element catalog with wraparound; stepping is
exactly cyclic (8 steps in one direction is the identity, and a forward
step followed by a backward step is the identity); with the lock disabled
the wheel leaves the selection unchanged. -/
theorem c8_wheel_cycling :
    ASPECT_RATIOS.length = 8 ∧
    (∀ dy : ℚ, 0 < dy → ∀ idx : Nat, idx < 8 →
      handleWheelIndex false true dy idx = if idx = 7 then 0 else idx + 1) ∧
    (∀ dy : ℚ, dy < 0 → ∀ idx : Nat, idx < 8 →
      handleWheelIndex false true dy idx = if idx = 0 then 7 else idx - 1) ∧
    (∀ idx : Nat, idx < 8 →
      (fun i => handleWheelIndex false true 1 i)^[8] idx = idx) ∧
    (∀ idx : Nat, idx < 8 →
      (fun i => handleWheelIndex false true (-1) i)^[8] idx = idx) ∧
    (∀ idx : Nat, idx < 8 →
      handleWheelIndex false true (-1)
        (handleWheelIndex false true 1 idx) = idx) ∧
    (∀ (dy : ℚ) (idx : Nat), handleWheelIndex false false dy idx = idx) := by
  refine ⟨rfl, ?_, ?_, ?_, ?_, ?_, ?_⟩
  · intro dy hdy idx hidx
    simp [handleWheelIndex, cycleRatioIndex, hdy, ASPECT_RATIOS]
  · intro dy hdy idx hidx
    simp [handleWheelIndex, cycleRatioIndex, not_lt.mpr hdy.le,
          ASPECT_RATIOS]
  · intro idx hidx
    interval_cases idx <;> decide
  · intro idx hidx
    interval_cases idx <;> decide
  · intro idx hidx
    interval_cases idx <;> decide
  · intro dy idx
    simp [handleWheelIndex]

/-- Witness for `c8_wheel_cycling`: forward from the last index wraps to
the first, backward from the first wraps to the last. -/
theorem c8_witness :
    handleWheelIndex false true 2 7 = 0 ∧
    handleWheelIndex false true (-2) 0 = 7 :=
  ⟨(c8_wheel_cycling.2.1 2 (by norm_num) 7 (by norm_num)).trans (by decide),
   (c8_wheel_cycling.2.2.1 (-2) (by norm_num) 0 (by norm_num)).trans
     (by decide)⟩

/- ### Claim C9 -/

/-- Claim C9: if the drawing context or image element is unavailable at
commit, `getCroppedImage` returns the explicit not-ready signal (`none`)
and `handleCrop` aborts with the component state unchanged, invoking
neither the image-update callback nor the close action. -/
theorem c9_commit_abort (ctxOk imgOk : Bool)
    (naturalW naturalH imgW imgH : ℚ) (s : EditorState)
    (h : ctxOk = false ∨ imgOk = false) :
    getCroppedImage ctxOk imgOk naturalW naturalH imgW imgH s = none ∧
    handleCrop ctxOk imgOk naturalW naturalH imgW imgH s =
      ⟨s, false, false⟩ := by
  have hb : (ctxOk && imgOk) = false := by
    rcases h with h | h <;> simp [h]
  constructor
  · simp [getCroppedImage, hb]
  · simp [handleCrop, getCroppedImage, hb]

/-- Witness for `c9_commit_abort` with the context unavailable. -/
theorem c9_witness :
    getCroppedImage false true 1000 1000 1000 1000 initialEditorState =
      none ∧
    handleCrop false true 1000 1000 1000 1000 initialEditorState =
      ⟨initialEditorState, false, false⟩ :=
  c9_commit_abort false true 1000 1000 1000 1000 initialEditorState
    (Or.inl rfl)

/- ### Claim C10 -/

/-- All four custom dimension fields are at least 1. -/
def FieldsOK (s : EditorState) : Prop :=
  1 ≤ s.customWidth ∧ 1 ≤ s.customHeight ∧
  1 ≤ s.pixelWidth ∧ 1 ≤ s.pixelHeight

lemma setDimensionInput_ge_one (raw : Option ℤ) :
    1 ≤ setDimensionInput raw :=
  le_max_left _ _

lemma applyInputEvent_fieldsOK {s : EditorState} (h : FieldsOK s)
    (ev : InputEvent) : FieldsOK (applyInputEvent s ev) := by
  obtain ⟨h1, h2, h3, h4⟩ := h
  cases ev with
  | setCustomWidth raw => exact ⟨setDimensionInput_ge_one raw, h2, h3, h4⟩
  | setCustomHeight raw => exact ⟨h1, setDimensionInput_ge_one raw, h3, h4⟩
  | setPixelWidth raw => exact ⟨h1, h2, setDimensionInput_ge_one raw, h4⟩
  | setPixelHeight raw => exact ⟨h1, h2, h3, setDimensionInput_ge_one raw⟩
  | swapRatioDims => exact ⟨h2, h1, h3, h4⟩
  | swapPixelDims => exact ⟨h1, h2, h4, h3⟩

lemma applyInputEvents_fieldsOK (evs : List InputEvent) {s : EditorState}
    (h : FieldsOK s) : FieldsOK (applyInputEvents s evs) := by
  induction evs generalizing s with
  | nil => exact h
  | cons ev rest ih => exact ih (applyInputEvent_fieldsOK h ev)

lemma currentRatioVal_pos {s : EditorState} (h : FieldsOK s)
    (hidx : s.currentRatioIndex < 8) :
    currentRatioVal s = none ∨
      ∃ r, currentRatioVal s = some r ∧ 0 < r := by
  obtain ⟨h1, h2, h3, h4⟩ := h
  by_cases hlock : s.lockAspectRatio
  · right
    rw [currentRatioVal, if_pos hlock]
    refine ⟨_, rfl, ?_⟩
    have hcw : (0:ℚ) < (s.customWidth : ℚ) := by exact_mod_cast by omega
    have hch : (0:ℚ) < (s.customHeight : ℚ) := by exact_mod_cast by omega
    have hpw : (0:ℚ) < (s.pixelWidth : ℚ) := by exact_mod_cast by omega
    have hph : (0:ℚ) < (s.pixelHeight : ℚ) := by exact_mod_cast by omega
    split_ifs with hc hm
    · exact div_pos hcw hch
    · exact div_pos hpw hph
    · have h7 : s.currentRatioIndex ≠ 7 := by
        intro heq
        apply hc
        simp [isCustomRatio, ASPECT_RATIOS, heq]
      have hcases : s.currentRatioIndex = 0 ∨ s.currentRatioIndex = 1 ∨
          s.currentRatioIndex = 2 ∨ s.currentRatioIndex = 3 ∨
          s.currentRatioIndex = 4 ∨ s.currentRatioIndex = 5 ∨
          s.currentRatioIndex = 6 := by omega
      rcases hcases with h | h | h | h | h | h | h <;>
        rw [h] <;> norm_num [ASPECT_RATIOS]
  · left
    simp [currentRatioVal, hlock]

/-- Claim C10: every value accepted by the custom ratio / pixel dimension
inputs is an integer clamped to at least 1 (non-numeric input becomes 1),
so after every input sequence all four fields stay at least 1, the
derived ratios `customWidth/customHeight` and `pixelWidth/pixelHeight`
are finite positive rationals, and the effective ratio, when present, is
positive — so the resize divisions by the current ratio never divide by
zero. -/
theorem c10_input_safety :
    (∀ raw : Option ℤ, 1 ≤ setDimensionInput raw) ∧
    setDimensionInput none = 1 ∧
    (∀ evs : List InputEvent,
      FieldsOK (applyInputEvents initialEditorState evs)) ∧
    (∀ s : EditorState, FieldsOK s →
      0 < customRatioValue s ∧
      0 < (s.pixelWidth : ℚ) / (s.pixelHeight : ℚ)) ∧
    (∀ s : EditorState, FieldsOK s → s.currentRatioIndex < 8 →
      currentRatioVal s = none ∨
        ∃ r, currentRatioVal s = some r ∧ 0 < r) := by
  refine ⟨setDimensionInput_ge_one, rfl, ?_, ?_, ?_⟩
  · intro evs
    exact applyInputEvents_fieldsOK evs
      ⟨by norm_num [initialEditorState], by norm_num [initialEditorState],
       by norm_num [initialEditorState], by norm_num [initialEditorState]⟩
  · intro s hs
    obtain ⟨h1, h2, h3, h4⟩ := hs
    constructor
    · exact div_pos (by exact_mod_cast by omega) (by exact_mod_cast by omega)
    · exact div_pos (by exact_mod_cast by omega) (by exact_mod_cast by omega)
  · intro s hs hidx
    exact currentRatioVal_pos hs hidx

/-- Witness for `c10_input_safety`: a concrete input sequence with a
non-numeric entry, a zero entry and a swap. -/
theorem c10_witness :
    FieldsOK (applyInputEvents initialEditorState
      [InputEvent.setCustomWidth none, InputEvent.swapRatioDims,
       InputEvent.setPixelHeight (some 0)]) ∧
    (currentRatioVal initialEditorState = none ∨
      ∃ r, currentRatioVal initialEditorState = some r ∧ 0 < r) :=
  ⟨c10_input_safety.2.2.1 _,
   c10_input_safety.2.2.2.2 initialEditorState
     (by norm_num [FieldsOK, initialEditorState])
     (by norm_num [initialEditorState])⟩

end ImageSizer
